import Mathlib

/-!
Shallow embedding of the PGDN scoring library
(`src/pgdn/scoring/default_scorer.py` and `src/pgdn/scoring/advanced_scorer.py`)
and proofs about the claims of its specification.

Conventions of the embedding:
* Python numbers are modelled as `Int` / `ℚ`; the float literals `1.5`, `1.2`,
  `0.7`, `0.85`, `0.1` are modelled as the exact rationals they denote.
* Python dicts that the code only reads in insertion order (`vulns`,
  `risk_factors`) are association lists.
* A missing optional key and an explicit `None` are both modelled as `none`
  (the two are observationally identical in every branch of this code).
* `hashlib.sha256`/`hashlib.md5` and `datetime.utcnow` are external library
  calls; they enter the model as opaque parameters (`sha`, `ts`, `md5r`).
-/

namespace Pgdn

/-- `substAt pat s` : the character list `pat` occurs at the head of `s`
(Python substring search primitive). -/
def substAt : List Char → List Char → Bool
  | [], _ => true
  | _ :: _, [] => false
  | a :: as, b :: bs => a == b && substAt as bs

/-- `hasSub s pat` : `pat` occurs as a contiguous sublist of `s`. -/
def hasSub : List Char → List Char → Bool
  | [], pat => pat.isEmpty
  | s@(_ :: t), pat => substAt pat s || hasSub t pat

/-- `strContains s pat` models the Python expression `pat in s` on strings. -/
def strContains (s pat : String) : Bool :=
  hasSub s.data pat.data

/-- Python `str.lower()`: lower-cases every character
(structurally recursive counterpart of `String.toLower`). -/
def strLower (s : String) : String :=
  ⟨s.data.map Char.toLower⟩

/-- Python `str.startswith` (structurally recursive counterpart of
`String.startsWith`). -/
def strStarts (s pre : String) : Bool :=
  substAt pre.data s.data

/-- Python `str` of a list of ints, e.g. `[2222, 2200]`
(used in f-string flags). -/
def listRepr (l : List Int) : String :=
  "[" ++ String.intercalate ", " (l.map toString) ++ "]"

/-- Rendering of the score used in summary strings.  (Python renders a float
score as e.g. `78.4`; the exact text of `summary` is never the subject of a
claim, so the rational is rendered with Lean's `toString`.) -/
def ratRepr (q : ℚ) : String := toString q

/-- The `tls` mapping of a scan record: keys `issuer` and `expiry`
(spec section 3).  `none` in a field models an absent key or `None` value. -/
structure TlsInfo where
  issuer : Option String
  expiry : Option String
deriving DecidableEq

/-- The `docker_exposure` mapping of a scan record.  The code never reads it;
it is passed through to the report (with default `{"exposed": False}`). -/
structure DockerExposure where
  exposed : Bool
deriving DecidableEq

/-- A scan record (`scan_data` in the source, spec section 3).
`tls = none` models an absent or `None` value; an empty `tls` mapping is
`some ⟨none, none⟩` (both behave identically in every branch of the code). -/
structure ScanRecord where
  ip : String
  open_ports : List Int
  tls : Option TlsInfo
  vulns : List (String × String)
  docker_exposure : Option DockerExposure
deriving DecidableEq

/-- The `pgdn_metrics` sub-object built by `DefaultScorer.score`.
`tls_grade = none` models the key being absent. -/
structure PgdnMetrics where
  scorer_version : String
  risk_factors : List (String × String)
  security_grade : String
  compliance_score : Int
  tls_grade : Option String
deriving DecidableEq

/-- The dict returned by `AdvancedScorer._apply_ml_analysis`. -/
structure MLAnalysis where
  score_adjustment : Int
  ml_flags : List String
  ml_risk_level : String
  ml_confidence : ℚ
  analysis_methods : List String
deriving DecidableEq

/-- The report dict returned by `score` (spec section 3, ScoreReport).
`ml_analysis` and `ml_enhanced` are keys only the advanced scorer adds;
`none` models their absence in the baseline report. -/
structure Report where
  ip : String
  score : ℚ
  flags : List String
  summary : String
  timestamp : String
  hash : String
  docker_exposure : DockerExposure
  pgdn_metrics : PgdnMetrics
  pgdn_risk_level : String
  scorer_id : String
  enhanced_analysis : Bool
  ml_analysis : Option MLAnalysis
  ml_enhanced : Option Bool
deriving DecidableEq

namespace DefaultScorer

/-- The mutable accumulator of `DefaultScorer.score`
(`score`, `flags`, and the parts of `pgdn_metrics` updated along the way). -/
structure ScoreState where
  score : ℚ
  flags : List String
  riskFactors : List (String × String)
  securityGrade : String
  tlsGrade : Option String
deriving DecidableEq

/-- Initial state of `DefaultScorer.score`
(`score = 100`, empty flags, grade `A+`). -/
def initState : ScoreState := ⟨100, [], [], "A+", none⟩

/-- Docker analysis of `DefaultScorer.score` (default_scorer.py lines 49-58):
port 2375 costs the `docker_exposure` weight 35 and forces grade `F`;
otherwise port 2376 costs a flat 15. -/
def dockerCheck (ports : List Int) (st : ScoreState) : ScoreState :=
  if 2375 ∈ ports then
    { st with
      score := st.score - 35
      flags := st.flags ++ ["CRITICAL: Docker socket exposed (unencrypted)"]
      riskFactors := st.riskFactors ++ [("docker", "CRITICAL")]
      securityGrade := "F" }
  else if 2376 ∈ ports then
    { st with
      score := st.score - 15
      flags := st.flags ++ ["WARNING: Docker TLS socket exposed"]
      riskFactors := st.riskFactors ++ [("docker", "MEDIUM")] }
  else st

/-- The alternative SSH ports checked at default_scorer.py line 66. -/
def altSshPorts : List Int := [2222, 2200, 2022]

/-- SSH analysis of `DefaultScorer.score` (default_scorer.py lines 60-70):
port 22 costs the `ssh_open` weight 12; independently, any of the
alternative SSH ports costs a flat 8. -/
def sshCheck (ports : List Int) (st : ScoreState) : ScoreState :=
  let st1 :=
    if 22 ∈ ports then
      { st with
        score := st.score - 12
        flags := st.flags ++ ["SSH port exposed"]
        riskFactors := st.riskFactors ++ [("ssh", "MEDIUM")] }
    else st
  let alt := ports.filter (fun p => p ∈ altSshPorts)
  if alt = [] then st1
  else
    { st1 with
      score := st1.score - 8
      flags := st1.flags ++ ["Alternative SSH ports detected: " ++ listRepr alt] }

/-- The TLS-issue condition of default_scorer.py line 73:
`not tls or tls.get("issuer") in (None, "Self-signed") or not tls.get("expiry")`.
An empty mapping (falsy in Python) is `some ⟨none, none⟩` here and takes the
same branch through the `issuer` disjunct. -/
def tlsBad (t : Option TlsInfo) : Bool :=
  match t with
  | none => true
  | some ti =>
    (ti.issuer = none : Bool) || (ti.issuer = some "Self-signed" : Bool) ||
      (match ti.expiry with
       | none => true
       | some e => e = "")

/-- The `tls_grade` classification of default_scorer.py lines 80-87,
on `str(tls.get("issuer", "")).lower()`. -/
def tlsGradeOf (t : Option TlsInfo) : String :=
  let issuer := strLower (match t with
    | none => ""
    | some ti => ti.issuer.getD "")
  if strContains issuer "let\x27s encrypt" then "B"
  else if strContains issuer "digicert" || strContains issuer "comodo" ||
      strContains issuer "globalsign" then "A"
  else "C"

/-- TLS analysis of `DefaultScorer.score` (default_scorer.py lines 72-87):
bad TLS costs the `tls_issues` weight 28 and sets grade `D` unless the grade
is already `F`; good TLS only records a `tls_grade`. -/
def tlsCheck (t : Option TlsInfo) (st : ScoreState) : ScoreState :=
  if tlsBad t then
    { st with
      score := st.score - 28
      flags := st.flags ++ ["TLS configuration critical issues"]
      riskFactors := st.riskFactors ++ [("tls", "CRITICAL")]
      securityGrade := if st.securityGrade = "F" then st.securityGrade else "D" }
  else
    { st with
      tlsGrade := some (tlsGradeOf t) }

/-- `DefaultScorer._assess_vuln_severity` (default_scorer.py lines 147-159):
case-insensitive keyword match on `f"{vuln_id} {vuln_desc}"`,
first matching category wins. -/
def assessVulnSeverity (vulnId vulnDesc : String) : String :=
  let text := strLower (vulnId ++ " " ++ vulnDesc)
  if [ "critical", "rce", "remote code execution",
       "unauthenticated"].any (fun k => strContains text k) then "CRITICAL"
  else if ["high", "privilege escalation",
       "buffer overflow"].any (fun k => strContains text k) then "HIGH"
  else if ["medium", "dos", "denial of service",
       "xss"].any (fun k => strContains text k) then "MEDIUM"
  else "LOW"

/-- One iteration of the vulnerability loop of `DefaultScorer.score`
(default_scorer.py lines 90-103): penalty 18 scaled by 1.5 for CRITICAL and
1.2 for HIGH, a `Vulnerability: id (severity)` flag, and a
`vuln_id` risk factor. -/
def vulnStep (st : ScoreState) (v : String × String) : ScoreState :=
  let sev := assessVulnSeverity v.1 v.2
  let penalty : ℚ := 18
  let penalty :=
    if sev = "CRITICAL" then penalty * (3 / 2)
    else if sev = "HIGH" then penalty * (6 / 5)
    else penalty
  { st with
    score := st.score - penalty
    flags := st.flags ++ ["Vulnerability: " ++ v.1 ++ " (" ++ sev ++ ")"]
    riskFactors := st.riskFactors ++ [("vuln_" ++ v.1, sev)] }

/-- The whole vulnerability loop of `DefaultScorer.score`. -/
def vulnCheck (vulns : List (String × String)) (st : ScoreState) : ScoreState :=
  vulns.foldl vulnStep st

/-- The database ports checked at default_scorer.py line 106. -/
def dbPorts : List Int := [3306, 5432, 27017, 6379, 1433, 1521]

/-- Database-exposure analysis of `DefaultScorer.score`
(default_scorer.py lines 105-111): any database port costs the flat
`database_exposure` weight 30 and forces grade `F`. -/
def dbCheck (ports : List Int) (st : ScoreState) : ScoreState :=
  let db := ports.filter (fun p => p ∈ dbPorts)
  if db = [] then st
  else
    { st with
      score := st.score - 30
      flags := st.flags ++ ["CRITICAL: Database ports exposed: " ++ listRepr db]
      riskFactors := st.riskFactors ++ [("database", "CRITICAL")]
      securityGrade := "F" }

/-- Port-count penalty of `DefaultScorer.score` (default_scorer.py
lines 113-117): 2 points per open port beyond the fifth. -/
def portCountCheck (ports : List Int) (st : ScoreState) : ScoreState :=
  if ports.length > 5 then
    { st with
      score := st.score - ((ports.length - 5 : ℕ) : ℚ) * 2
      flags := st.flags ++
        ["Excessive port exposure: " ++ toString ports.length ++ " ports"] }
  else st

/-- The pre-clamp accumulator of `DefaultScorer.score`: the six rule blocks of
default_scorer.py lines 47-117 applied in source order. -/
def preClamp (r : ScanRecord) : ScoreState :=
  portCountCheck r.open_ports
    (dbCheck r.open_ports
      (vulnCheck r.vulns
        (tlsCheck r.tls
          (sshCheck r.open_ports
            (dockerCheck r.open_ports initState)))))

/-- Compliance scoring of default_scorer.py lines 119-121:
`max(0, 100 - 25 * number of flags containing "CRITICAL")`. -/
def complianceScore (flags : List String) : Int :=
  max 0 (100 - (flags.filter (fun f => strContains f "CRITICAL")).length * 25)

/-- The clamp of default_scorer.py line 124: `max(0, min(100, score))`. -/
def clamp01 (q : ℚ) : ℚ := max 0 (min 100 q)

/-- `DefaultScorer._calculate_pgdn_risk` (default_scorer.py lines 126-145). -/
def calculatePgdnRisk (score : ℚ) (metrics : PgdnMetrics) : String :=
  if score ≥ 95 ∧ (metrics.security_grade = "A+" ∨ metrics.security_grade = "A")
    then "MINIMAL"
  else if score ≥ 85 ∧ (metrics.security_grade = "A+" ∨
      metrics.security_grade = "A" ∨ metrics.security_grade = "B")
    then "LOW"
  else if score ≥ 70 then "MODERATE"
  else if score ≥ 50 then "HIGH"
  else "CRITICAL"

/-- `DefaultScorer.score` with `self.version` as a parameter: the advanced
scorer inherits this method with `version = "2.0.0-advanced"`.
`sha` stands for the SHA-256 content hash of the input and `ts` for the
UTC timestamp, both produced by external library calls. -/
def scoreWithVersion (version sha ts : String) (r : ScanRecord) : Report :=
  let st := preClamp r
  let finalScore := clamp01 st.score
  let metrics : PgdnMetrics :=
    { scorer_version := version
      risk_factors := st.riskFactors
      security_grade := st.securityGrade
      compliance_score := complianceScore st.flags
      tls_grade := st.tlsGrade }
  let risk := calculatePgdnRisk finalScore metrics
  { ip := r.ip
    score := finalScore
    flags := st.flags
    summary := "PGDN Trust Score: " ++ ratRepr finalScore ++ "/100 (v" ++
      version ++ "). Grade: " ++ st.securityGrade ++ ". Risk: " ++ risk
    timestamp := ts
    hash := sha
    docker_exposure := r.docker_exposure.getD ⟨false⟩
    pgdn_metrics := metrics
    pgdn_risk_level := risk
    scorer_id := "pgdn.scoring.default_scorer.DefaultScorer"
    enhanced_analysis := true
    ml_analysis := none
    ml_enhanced := none }

/-- `DefaultScorer().score(scan_data)`: the baseline scorer,
whose `self.version` is `"1.0.0"`. -/
def score (sha ts : String) (r : ScanRecord) : Report :=
  scoreWithVersion "1.0.0" sha ts r

end DefaultScorer

namespace AdvancedScorer

/-- The fixed attack-pattern groups of
`AdvancedScorer._is_suspicious_port_pattern` (advanced_scorer.py
lines 119-124). -/
def attackPatterns : List (List Int) :=
  [[80, 443, 8080, 8443], [21, 22, 23, 25], [3306, 5432, 27017]]

/-- `AdvancedScorer._is_suspicious_port_pattern` (advanced_scorer.py
lines 113-130): more than 10 ports, or all ports of one attack-pattern
group present. -/
def isSuspiciousPortPattern (ports : List Int) : Bool :=
  if ports.length > 10 then true
  else attackPatterns.any (fun pat => pat.all (fun p => p ∈ ports))

/-- `AdvancedScorer._assess_geographic_risk` (advanced_scorer.py
lines 132-144).  `md5r ip` abstracts the external-library expression
`int(hashlib.md5(ip.encode()).hexdigest()[:8], 16)`. -/
def assessGeographicRisk (md5r : String → ℕ) (ip : String) : ℚ :=
  if strStarts ip "192.168." || strStarts ip "10." || strStarts ip "172."
    then 1 / 10
  else if strStarts ip "127." then 0
  else ((md5r ip % 100 : ℕ) : ℚ) / 100

/-- `AdvancedScorer._detect_behavioral_anomaly` (advanced_scorer.py
lines 146-160): SSH and a database port and a web port and the Docker
port all present. -/
def detectBehavioralAnomaly (r : ScanRecord) : Bool :=
  let ports := r.open_ports
  let hasSsh := 22 ∈ ports
  let hasDb := ([3306, 5432, 27017] : List Int).any (fun p => p ∈ ports)
  let hasWeb := ([80, 443] : List Int).any (fun p => p ∈ ports)
  let hasDocker := 2375 ∈ ports
  hasSsh && hasDb && hasWeb && hasDocker

/-- `AdvancedScorer._detect_security_best_practices` (advanced_scorer.py
lines 162-179): HTTPS without HTTP, a truthy TLS mapping with a truthy
issuer not containing the substring `Self-signed`, and at most 3 open
ports.  (A truthy `tls` with a truthy `issuer` is `some ti` with
`ti.issuer = some s`, `s ≠ ""`.) -/
def detectSecurityBestPractices (r : ScanRecord) : Bool :=
  let ports := r.open_ports
  let hasHttps := 443 ∈ ports
  let hasHttp := 80 ∈ ports
  let goodTls :=
    match r.tls with
    | none => false
    | some ti =>
      match ti.issuer with
      | none => false
      | some s => (s != "") && !(strContains s "Self-signed")
  hasHttps && !hasHttp && goodTls && (ports.length ≤ 3)

/-- `AdvancedScorer._calculate_ml_risk_level` (advanced_scorer.py
lines 181-190). -/
def calculateMlRiskLevel (adj : Int) : String :=
  if adj ≥ 0 then "LOW"
  else if adj ≥ -10 then "MODERATE"
  else if adj ≥ -20 then "HIGH"
  else "CRITICAL"

/-- `AdvancedScorer._apply_ml_analysis` (advanced_scorer.py lines 70-111):
the four heuristic rules applied in source order, accumulating an integer
score adjustment and ML flags. -/
def applyMlAnalysis (md5r : String → ℕ) (r : ScanRecord) : MLAnalysis :=
  let stage0 : Int × List String := (0, [])
  let stage1 :=
    if isSuspiciousPortPattern r.open_ports then
      (stage0.1 - 15, stage0.2 ++ ["ML: Suspicious port pattern detected"])
    else stage0
  let geoRisk := assessGeographicRisk md5r r.ip
  let stage2 :=
    if geoRisk > 7 / 10 then
      (stage1.1 - 10, stage1.2 ++ ["ML: High geographic risk detected"])
    else stage1
  let stage3 :=
    if detectBehavioralAnomaly r then
      (stage2.1 - 20, stage2.2 ++ ["ML: Behavioral anomaly detected"])
    else stage2
  let stage4 :=
    if detectSecurityBestPractices r then
      (stage3.1 + 5, stage3.2 ++ ["ML: Security best practices detected"])
    else stage3
  { score_adjustment := stage4.1
    ml_flags := stage4.2
    ml_risk_level := calculateMlRiskLevel stage4.1
    ml_confidence := 17 / 20
    analysis_methods := ["port_pattern", "geo_risk", "behavioral",
      "best_practices"] }

/-- `AdvancedScorer().score(scan_data)` (advanced_scorer.py lines 30-68):
the inherited `DefaultScorer.score` body runs with
`self.version = "2.0.0-advanced"`; its result is merged with the ML
adjustment bundle. -/
def score (md5r : String → ℕ) (sha ts : String) (r : ScanRecord) : Report :=
  let base := DefaultScorer.scoreWithVersion "2.0.0-advanced" sha ts r
  let ml := applyMlAnalysis md5r r
  let adjusted := DefaultScorer.clamp01 (base.score + (ml.score_adjustment : ℚ))
  { base with
    score := adjusted
    flags := base.flags ++ ml.ml_flags
    summary := "Advanced ML Score: " ++ ratRepr adjusted ++
      "/100 (v2.0.0-advanced). ML Risk: " ++ ml.ml_risk_level
    ml_analysis := some ml
    scorer_id := "pgdn.scoring.advanced_scorer.AdvancedScorer"
    ml_enhanced := some true }

end AdvancedScorer

/-! ### Specification-side definitions

For the refinement claims, the following definitions are written from the
words of the specification (sections 4.2 and 8) rather than from the code,
to be compared against the code-side definitions above. -/

/-- Spec section 4.2: the sum of the adjustments of the triggered secondary
rules (suspicious port pattern −15, geographic risk −10, behavioral anomaly
−20, best-practice bonus +5). -/
def mlAdjustmentSpec (md5r : String → ℕ) (r : ScanRecord) : Int :=
  (if AdvancedScorer.isSuspiciousPortPattern r.open_ports then -15 else 0) +
  (if AdvancedScorer.assessGeographicRisk md5r r.ip > 7 / 10 then -10 else 0) +
  (if AdvancedScorer.detectBehavioralAnomaly r then -20 else 0) +
  (if AdvancedScorer.detectSecurityBestPractices r then 5 else 0)

/-- Spec section 4.2: the flags of the triggered secondary rules, in the
fixed rule order suspicious port pattern, geographic risk, behavioral
anomaly, best-practice bonus. -/
def mlFlagsSpec (md5r : String → ℕ) (r : ScanRecord) : List String :=
  (if AdvancedScorer.isSuspiciousPortPattern r.open_ports then
    ["ML: Suspicious port pattern detected"] else []) ++
  (if AdvancedScorer.assessGeographicRisk md5r r.ip > 7 / 10 then
    ["ML: High geographic risk detected"] else []) ++
  (if AdvancedScorer.detectBehavioralAnomaly r then
    ["ML: Behavioral anomaly detected"] else []) ++
  (if AdvancedScorer.detectSecurityBestPractices r then
    ["ML: Security best practices detected"] else [])

/-! ### Concrete records used as test vectors -/

/-- A clean HTTPS-only host with a DigiCert certificate. -/
def recHttpsDigicert : ScanRecord :=
  ⟨"10.0.0.1", [443], some ⟨some "DigiCert", some "2030-01-01"⟩, [], none⟩

/-- A clean host with five innocuous open ports. -/
def recFivePorts : ScanRecord :=
  ⟨"10.0.0.1", [1, 2, 3, 4, 5], some ⟨some "DigiCert", some "2030-01-01"⟩,
    [], none⟩

/-- A host whose only finding is one HIGH-severity vulnerability. -/
def recHighVuln : ScanRecord :=
  ⟨"10.0.0.1", [], some ⟨some "DigiCert", some "2030-01-01"⟩,
    [("CVE-3", "high risk")], none⟩

/-- A clean host whose open ports form the web-enumeration attack pattern. -/
def recWebEnum : ScanRecord :=
  ⟨"10.0.0.1", [80, 443, 8080, 8443],
    some ⟨some "DigiCert", some "2030-01-01"⟩, [], none⟩

/-- An HTTPS-only host whose issuer string strictly contains
`Self-signed` without being equal to it. -/
def recSelfSignedCa : ScanRecord :=
  ⟨"10.0.0.1", [443], some ⟨some "Self-signed-CA", some "2030-01-01"⟩,
    [], none⟩

/-! ### Projection lemmas -/

theorem scoreWithVersion_score (v sha ts : String) (r : ScanRecord) :
    (DefaultScorer.scoreWithVersion v sha ts r).score =
      DefaultScorer.clamp01 (DefaultScorer.preClamp r).score := rfl

theorem scoreWithVersion_flags (v sha ts : String) (r : ScanRecord) :
    (DefaultScorer.scoreWithVersion v sha ts r).flags =
      (DefaultScorer.preClamp r).flags := rfl

theorem advancedScore_score (md5r : String → ℕ) (sha ts : String)
    (r : ScanRecord) :
    (AdvancedScorer.score md5r sha ts r).score =
      DefaultScorer.clamp01
        (DefaultScorer.clamp01 (DefaultScorer.preClamp r).score +
          ((AdvancedScorer.applyMlAnalysis md5r r).score_adjustment : ℚ)) := rfl

theorem advancedScore_flags (md5r : String → ℕ) (sha ts : String)
    (r : ScanRecord) :
    (AdvancedScorer.score md5r sha ts r).flags =
      (DefaultScorer.preClamp r).flags ++
        (AdvancedScorer.applyMlAnalysis md5r r).ml_flags := rfl

theorem clamp01_nonneg (q : ℚ) : 0 ≤ DefaultScorer.clamp01 q :=
  le_max_left 0 _

theorem clamp01_le_100 (q : ℚ) : DefaultScorer.clamp01 q ≤ 100 :=
  max_le (by norm_num) (min_le_left _ _)

/-- `_apply_ml_analysis` computes exactly the spec's adjustment sum and the
spec's triggered-flag list in the fixed rule order. -/
theorem applyMlAnalysis_spec (md5r : String → ℕ) (r : ScanRecord) :
    (AdvancedScorer.applyMlAnalysis md5r r).score_adjustment =
      mlAdjustmentSpec md5r r ∧
    (AdvancedScorer.applyMlAnalysis md5r r).ml_flags = mlFlagsSpec md5r r := by
  simp only [AdvancedScorer.applyMlAnalysis, mlAdjustmentSpec, mlFlagsSpec]
  split_ifs <;> simp

/-! ### Claims -/

/-- Claim C1: for every scan record, the score of the report returned by
the baseline scorer (`DefaultScorer.score`) and by the enhanced scorer
(`AdvancedScorer.score`) lies between 0 and 100. -/
theorem pgdnC1_scoreBounds (md5r : String → ℕ) (sha ts : String)
    (r : ScanRecord) :
    (0 ≤ (DefaultScorer.score sha ts r).score ∧
      (DefaultScorer.score sha ts r).score ≤ 100) ∧
    (0 ≤ (AdvancedScorer.score md5r sha ts r).score ∧
      (AdvancedScorer.score md5r sha ts r).score ≤ 100) := by
  refine ⟨⟨?_, ?_⟩, ⟨?_, ?_⟩⟩
  · rw [DefaultScorer.score, scoreWithVersion_score]; exact clamp01_nonneg _
  · rw [DefaultScorer.score, scoreWithVersion_score]; exact clamp01_le_100 _
  · rw [advancedScore_score]; exact clamp01_nonneg _
  · rw [advancedScore_score]; exact clamp01_le_100 _

/-- Claim C2: the enhanced score equals
`clamp(base_score + sum of triggered adjustments, 0, 100)` where
`base_score` is the baseline scorer's score on the same record, and the
enhanced flags are exactly the baseline flags followed by the triggered ML
flags in the fixed rule order of spec section 4.2. -/
theorem pgdnC2_refinement (md5r : String → ℕ) (sha ts : String)
    (r : ScanRecord) :
    (AdvancedScorer.score md5r sha ts r).score =
      DefaultScorer.clamp01 ((DefaultScorer.score sha ts r).score +
        (mlAdjustmentSpec md5r r : ℚ)) ∧
    (AdvancedScorer.score md5r sha ts r).flags =
      (DefaultScorer.score sha ts r).flags ++ mlFlagsSpec md5r r := by
  obtain ⟨h1, h2⟩ := applyMlAnalysis_spec md5r r
  constructor
  · rw [advancedScore_score, h1, DefaultScorer.score, scoreWithVersion_score]
  · rw [advancedScore_flags, h2, DefaultScorer.score, scoreWithVersion_flags]

/-- Spec section 4.1: severity by case-insensitive keyword match on the
concatenation of id and description, first match wins in the priority order
CRITICAL, HIGH, MEDIUM, else LOW. -/
def severityPrioritySpec (vulnId vulnDesc : String) : String :=
  let text := strLower (vulnId ++ " " ++ vulnDesc)
  if strContains text "critical" || strContains text "rce" ||
      strContains text "remote code execution" ||
      strContains text "unauthenticated" then "CRITICAL"
  else if strContains text "high" || strContains text "privilege escalation" ||
      strContains text "buffer overflow" then "HIGH"
  else if strContains text "medium" || strContains text "dos" ||
      strContains text "denial of service" || strContains text "xss" then
    "MEDIUM"
  else "LOW"

/-- Spec section 4.1: the penalty of one vulnerability entry is the
vulnerabilities weight 18 times 1.5 for CRITICAL, 1.2 for HIGH,
1.0 otherwise. -/
def vulnPenaltySpec (v : String × String) : ℚ :=
  18 * (if DefaultScorer.assessVulnSeverity v.1 v.2 = "CRITICAL" then 3 / 2
    else if DefaultScorer.assessVulnSeverity v.1 v.2 = "HIGH" then 6 / 5
    else 1)

/-- Spec section 4.1: the flag of one vulnerability entry,
`Vulnerability: {id} ({severity})`. -/
def vulnFlagSpec (v : String × String) : String :=
  "Vulnerability: " ++ v.1 ++ " (" ++
    DefaultScorer.assessVulnSeverity v.1 v.2 ++ ")"

theorem vulnCheck_characterization (vulns : List (String × String)) :
    ∀ st : DefaultScorer.ScoreState,
      (DefaultScorer.vulnCheck vulns st).score =
        st.score - (vulns.map vulnPenaltySpec).sum ∧
      (DefaultScorer.vulnCheck vulns st).flags =
        st.flags ++ vulns.map vulnFlagSpec := by
  induction vulns with
  | nil => intro st; simp [DefaultScorer.vulnCheck]
  | cons v vs ih =>
    intro st
    have hstep : DefaultScorer.vulnCheck (v :: vs) st =
        DefaultScorer.vulnCheck vs (DefaultScorer.vulnStep st v) := rfl
    obtain ⟨ihs, ihf⟩ := ih (DefaultScorer.vulnStep st v)
    rw [hstep]
    constructor
    · rw [ihs]
      simp only [DefaultScorer.vulnStep, vulnPenaltySpec, List.map_cons,
        List.sum_cons]
      split_ifs <;> ring
    · rw [ihf]
      simp only [DefaultScorer.vulnStep, vulnFlagSpec, List.map_cons,
        List.append_assoc, List.singleton_append]

/-- The database-exposure rule only appends flags. -/
theorem dbCheck_flags_extend (ports : List Int)
    (st : DefaultScorer.ScoreState) :
    ∃ t, (DefaultScorer.dbCheck ports st).flags = st.flags ++ t := by
  unfold DefaultScorer.dbCheck
  dsimp only
  split_ifs
  · exact ⟨[], by simp⟩
  · exact ⟨_, rfl⟩

/-- The port-count rule only appends flags. -/
theorem portCountCheck_flags_extend (ports : List Int)
    (st : DefaultScorer.ScoreState) :
    ∃ t, (DefaultScorer.portCountCheck ports st).flags = st.flags ++ t := by
  unfold DefaultScorer.portCountCheck
  split_ifs
  · exact ⟨_, rfl⟩
  · exact ⟨[], by simp⟩

/-- Claim C5: `DefaultScorer.score` classifies each vulnerability by
case-insensitive keyword match with first-match-wins priority
CRITICAL, HIGH, MEDIUM, else LOW; for each entry it subtracts the weight 18
times 1.5 for CRITICAL, 1.2 for HIGH, 1.0 otherwise and appends
`Vulnerability: {id} ({severity})`; the report's flag list contains that
block of vulnerability flags in input order.  In particular
`{"CVE-1": "Remote Code Execution"}` is CRITICAL and
`{"CVE-2": "minor XSS issue"}` is MEDIUM. -/
theorem pgdnC5_vulnSeverity :
    (∀ vulnId vulnDesc, DefaultScorer.assessVulnSeverity vulnId vulnDesc =
      severityPrioritySpec vulnId vulnDesc) ∧
    (∀ (vulns : List (String × String)) (st : DefaultScorer.ScoreState),
      (DefaultScorer.vulnCheck vulns st).score =
        st.score - (vulns.map vulnPenaltySpec).sum ∧
      (DefaultScorer.vulnCheck vulns st).flags =
        st.flags ++ vulns.map vulnFlagSpec) ∧
    (∀ (sha ts : String) (r : ScanRecord), ∃ pre post,
      (DefaultScorer.score sha ts r).flags =
        pre ++ r.vulns.map vulnFlagSpec ++ post) ∧
    DefaultScorer.assessVulnSeverity "CVE-1" "Remote Code Execution" =
      "CRITICAL" ∧
    DefaultScorer.assessVulnSeverity "CVE-2" "minor XSS issue" = "MEDIUM" := by
  refine ⟨?_, fun vulns st => vulnCheck_characterization vulns st, ?_,
    by decide, by decide⟩
  · intro vulnId vulnDesc
    simp [DefaultScorer.assessVulnSeverity, severityPrioritySpec,
      List.any_cons, List.any_nil, Bool.or_assoc]
  · intro sha ts r
    obtain ⟨t1, h1⟩ := dbCheck_flags_extend r.open_ports
      (DefaultScorer.vulnCheck r.vulns (DefaultScorer.tlsCheck r.tls
        (DefaultScorer.sshCheck r.open_ports
          (DefaultScorer.dockerCheck r.open_ports DefaultScorer.initState))))
    obtain ⟨t2, h2⟩ := portCountCheck_flags_extend r.open_ports
      (DefaultScorer.dbCheck r.open_ports
        (DefaultScorer.vulnCheck r.vulns (DefaultScorer.tlsCheck r.tls
          (DefaultScorer.sshCheck r.open_ports
            (DefaultScorer.dockerCheck r.open_ports
              DefaultScorer.initState)))))
    refine ⟨(DefaultScorer.tlsCheck r.tls (DefaultScorer.sshCheck
      r.open_ports (DefaultScorer.dockerCheck r.open_ports
        DefaultScorer.initState))).flags, t1 ++ t2, ?_⟩
    rw [DefaultScorer.score, scoreWithVersion_flags]
    unfold DefaultScorer.preClamp
    rw [h2, h1, (vulnCheck_characterization r.vulns _).2]
    simp [List.append_assoc]

/-- Spec section 4.2, first three rules only: the adjustment contributed by
suspicious port pattern, geographic risk and behavioral anomaly. -/
def mlAdjustmentFirst3 (md5r : String → ℕ) (r : ScanRecord) : Int :=
  (if AdvancedScorer.isSuspiciousPortPattern r.open_ports then -15 else 0) +
  (if AdvancedScorer.assessGeographicRisk md5r r.ip > 7 / 10 then -10 else 0) +
  (if AdvancedScorer.detectBehavioralAnomaly r then -20 else 0)

/-- Spec section 4.2, first three rules only: the ML flags contributed by
suspicious port pattern, geographic risk and behavioral anomaly. -/
def mlFlagsFirst3 (md5r : String → ℕ) (r : ScanRecord) : List String :=
  (if AdvancedScorer.isSuspiciousPortPattern r.open_ports then
    ["ML: Suspicious port pattern detected"] else []) ++
  (if AdvancedScorer.assessGeographicRisk md5r r.ip > 7 / 10 then
    ["ML: High geographic risk detected"] else []) ++
  (if AdvancedScorer.detectBehavioralAnomaly r then
    ["ML: Behavioral anomaly detected"] else [])

/-- The geographic risk of a private-range IP is the constant 0.1
(advanced_scorer.py line 138). -/
theorem geoRisk_private (md5r : String → ℕ) (ip : String)
    (h : (strStarts ip "192.168." || strStarts ip "10." ||
      strStarts ip "172.") = true) :
    AdvancedScorer.assessGeographicRisk md5r ip = 1 / 10 := by
  simp [AdvancedScorer.assessGeographicRisk, h]

/-- A private-range IP never exceeds the 0.7 geographic-risk threshold. -/
theorem geoRisk_private_small (md5r : String → ℕ) (ip : String)
    (h : (strStarts ip "192.168." || strStarts ip "10." ||
      strStarts ip "172.") = true) :
    ¬ AdvancedScorer.assessGeographicRisk md5r ip > 7 / 10 := by
  rw [geoRisk_private md5r ip h]; norm_num

/-- Characterization of `_detect_security_best_practices`: the issuer
condition the code actually checks is that the issuer string does not
contain the substring `Self-signed` (not that it differs from it). -/
theorem bestPractices_iff (r : ScanRecord) :
    AdvancedScorer.detectSecurityBestPractices r = true ↔
      443 ∈ r.open_ports ∧ 80 ∉ r.open_ports ∧
      (∃ ti s, r.tls = some ti ∧ ti.issuer = some s ∧ s ≠ "" ∧
        strContains s "Self-signed" = false) ∧
      r.open_ports.length ≤ 3 := by
  unfold AdvancedScorer.detectSecurityBestPractices
  cases htls : r.tls with
  | none => simp [htls]
  | some ti =>
    cases hiss : ti.issuer with
    | none => simp [hiss]
    | some s =>
      simp only [hiss, Bool.and_eq_true, decide_eq_true_eq, Bool.not_eq_true',
        decide_eq_false_iff_not, bne_iff_ne, ne_eq, Bool.not_eq_true]
      constructor
      · rintro ⟨⟨⟨h443, h80⟩, hs, hss⟩, hlen⟩
        exact ⟨h443, h80, ⟨ti, s, rfl, hiss, hs, hss⟩, hlen⟩
      · rintro ⟨h443, h80, ⟨ti2, s2, hti2, hs2, hne, hsub⟩, hlen⟩
        injection hti2 with hti2e
        subst hti2e
        rw [hiss] at hs2
        injection hs2 with hs2e
        subst hs2e
        exact ⟨⟨⟨h443, h80⟩, hne, hsub⟩, hlen⟩

/-- Claim C4 as stated is false on the code: the code requires the issuer
not to *contain* the substring `Self-signed`, not merely to differ from it.
For the record `recSelfSignedCa` (issuer `Self-signed-CA`) every condition
of the claim holds — port 443 open, port 80 closed, TLS present with a
non-empty issuer different from `Self-signed`, one open port — yet the
bonus does not fire: no adjustment and no flag is produced. -/
theorem pgdnC4_cex :
    (443 ∈ recSelfSignedCa.open_ports ∧ 80 ∉ recSelfSignedCa.open_ports ∧
      (∃ ti s, recSelfSignedCa.tls = some ti ∧ ti.issuer = some s ∧
        s ≠ "" ∧ s ≠ "Self-signed") ∧
      recSelfSignedCa.open_ports.length ≤ 3) ∧
    AdvancedScorer.detectSecurityBestPractices recSelfSignedCa = false ∧
    (AdvancedScorer.applyMlAnalysis (fun _ => 0)
      recSelfSignedCa).score_adjustment = 0 ∧
    (AdvancedScorer.applyMlAnalysis (fun _ => 0) recSelfSignedCa).ml_flags =
      [] := by
  obtain ⟨h1, h2⟩ := applyMlAnalysis_spec (fun _ => 0) recSelfSignedCa
  have hgeo : ¬ AdvancedScorer.assessGeographicRisk (fun _ => 0)
      recSelfSignedCa.ip > 7 / 10 :=
    geoRisk_private_small _ _ (by decide)
  refine ⟨⟨by decide, by decide, ?_, by decide⟩, by decide, ?_, ?_⟩
  · exact ⟨⟨some "Self-signed-CA", some "2030-01-01"⟩, "Self-signed-CA",
      rfl, rfl, by decide, by decide⟩
  · rw [h1]
    simp [mlAdjustmentSpec, hgeo,
      (by decide : AdvancedScorer.isSuspiciousPortPattern
        recSelfSignedCa.open_ports = false),
      (by decide : AdvancedScorer.detectBehavioralAnomaly
        recSelfSignedCa = false),
      (by decide : AdvancedScorer.detectSecurityBestPractices
        recSelfSignedCa = false)]
  · rw [h2]
    simp [mlFlagsSpec, hgeo,
      (by decide : AdvancedScorer.isSuspiciousPortPattern
        recSelfSignedCa.open_ports = false),
      (by decide : AdvancedScorer.detectBehavioralAnomaly
        recSelfSignedCa = false),
      (by decide : AdvancedScorer.detectSecurityBestPractices
        recSelfSignedCa = false)]

/-- Claim C4 amended: the best-practice bonus fires iff port 443 is open,
port 80 is not, the tls mapping is present with a non-empty issuer that
does not contain the substring `Self-signed`, and at most 3 ports are open;
when it fires, the ML adjustment gains +5 over the first three rules and the
flag `ML: Security best practices detected` is appended after their flags. -/
theorem pgdnC4_bestPracticeAmended (md5r : String → ℕ) (r : ScanRecord) :
    (AdvancedScorer.detectSecurityBestPractices r = true ↔
      443 ∈ r.open_ports ∧ 80 ∉ r.open_ports ∧
      (∃ ti s, r.tls = some ti ∧ ti.issuer = some s ∧ s ≠ "" ∧
        strContains s "Self-signed" = false) ∧
      r.open_ports.length ≤ 3) ∧
    (AdvancedScorer.detectSecurityBestPractices r = true →
      (AdvancedScorer.applyMlAnalysis md5r r).score_adjustment =
        mlAdjustmentFirst3 md5r r + 5 ∧
      (AdvancedScorer.applyMlAnalysis md5r r).ml_flags =
        mlFlagsFirst3 md5r r ++ ["ML: Security best practices detected"]) := by
  refine ⟨bestPractices_iff r, fun h => ?_⟩
  obtain ⟨h1, h2⟩ := applyMlAnalysis_spec md5r r
  constructor
  · rw [h1]; simp [mlAdjustmentSpec, mlAdjustmentFirst3, h]
  · rw [h2]; simp [mlFlagsSpec, mlFlagsFirst3, h]

/-- A list containing four pairwise-distinct elements has length at
least 4. -/
theorem four_mem_length_le (a b c d : Int) (l : List Int)
    (hnd : ([a, b, c, d] : List Int).Nodup)
    (ha : a ∈ l) (hb : b ∈ l) (hc : c ∈ l) (hd : d ∈ l) :
    4 ≤ l.length := by
  have hsub : ([a, b, c, d] : List Int) ⊆ l := by
    intro x hx
    simp only [List.mem_cons, List.not_mem_nil, or_false] at hx
    rcases hx with rfl | rfl | rfl | rfl <;> assumption
  simpa using (hnd.subperm hsub).length_le

/-- When the best-practice bonus fires (at most 3 open ports, port 80
absent, port 443 present), the suspicious-port-pattern rule cannot fire. -/
theorem bestPractices_excludes_suspicious (r : ScanRecord)
    (h443 : 443 ∈ r.open_ports) (h80 : 80 ∉ r.open_ports)
    (hlen : r.open_ports.length ≤ 3) :
    AdvancedScorer.isSuspiciousPortPattern r.open_ports = false := by
  by_contra hne
  have hs : AdvancedScorer.isSuspiciousPortPattern r.open_ports = true := by
    cases hx : AdvancedScorer.isSuspiciousPortPattern r.open_ports
    · exact absurd hx hne
    · rfl
  unfold AdvancedScorer.isSuspiciousPortPattern at hs
  rw [if_neg (by omega : ¬ r.open_ports.length > 10)] at hs
  simp only [AdvancedScorer.attackPatterns, List.any_eq_true,
    List.all_eq_true, decide_eq_true_eq, List.mem_cons, List.not_mem_nil,
    or_false] at hs
  obtain ⟨pat, hpat, hall⟩ := hs
  rcases hpat with rfl | rfl | rfl
  · exact h80 (hall 80 (by simp))
  · have := four_mem_length_le 21 22 23 25 r.open_ports (by decide)
      (hall 21 (by simp)) (hall 22 (by simp)) (hall 23 (by simp))
      (hall 25 (by simp))
    omega
  · have := four_mem_length_le 443 3306 5432 27017 r.open_ports (by decide)
      h443 (hall 3306 (by simp)) (hall 5432 (by simp)) (hall 27017 (by simp))
    omega

/-- When the best-practice bonus fires, the behavioral-anomaly rule cannot
fire. -/
theorem bestPractices_excludes_behavioral (r : ScanRecord)
    (h80 : 80 ∉ r.open_ports) (hlen : r.open_ports.length ≤ 3) :
    AdvancedScorer.detectBehavioralAnomaly r = false := by
  by_contra hne
  have hb : AdvancedScorer.detectBehavioralAnomaly r = true := by
    cases hx : AdvancedScorer.detectBehavioralAnomaly r
    · exact absurd hx hne
    · rfl
  unfold AdvancedScorer.detectBehavioralAnomaly at hb
  simp only [Bool.and_eq_true, List.any_eq_true, decide_eq_true_eq,
    List.mem_cons, List.not_mem_nil, or_false] at hb
  obtain ⟨⟨⟨h22, hdb⟩, hweb⟩, h2375⟩ := hb
  obtain ⟨w, hw, hwm⟩ := hweb
  rcases hw with rfl | rfl
  · exact h80 hwm
  · obtain ⟨p, hp, hpm⟩ := hdb
    rcases hp with rfl | rfl | rfl <;>
    · have := four_mem_length_le 22 _ 2375 443 r.open_ports (by decide)
        h22 hpm h2375 hwm
      omega

/-- Witness for the amended claim C4 at a concrete record on which the
best-practice bonus fires. -/
theorem pgdnC4_witness :
    AdvancedScorer.detectSecurityBestPractices recHttpsDigicert = true ∧
    (AdvancedScorer.applyMlAnalysis (fun _ => 0)
      recHttpsDigicert).score_adjustment =
      mlAdjustmentFirst3 (fun _ => 0) recHttpsDigicert + 5 :=
  ⟨by decide,
    ((pgdnC4_bestPracticeAmended (fun _ => 0) recHttpsDigicert).2
      (by decide)).1⟩

theorem scoreWithVersion_risk (v sha ts : String) (r : ScanRecord) :
    (DefaultScorer.scoreWithVersion v sha ts r).pgdn_risk_level =
      DefaultScorer.calculatePgdnRisk
        (DefaultScorer.clamp01 (DefaultScorer.preClamp r).score)
        ⟨v, (DefaultScorer.preClamp r).riskFactors,
          (DefaultScorer.preClamp r).securityGrade,
          DefaultScorer.complianceScore (DefaultScorer.preClamp r).flags,
          (DefaultScorer.preClamp r).tlsGrade⟩ := rfl

theorem scoreWithVersion_metrics (v sha ts : String) (r : ScanRecord) :
    (DefaultScorer.scoreWithVersion v sha ts r).pgdn_metrics =
      ⟨v, (DefaultScorer.preClamp r).riskFactors,
        (DefaultScorer.preClamp r).securityGrade,
        DefaultScorer.complianceScore (DefaultScorer.preClamp r).flags,
        (DefaultScorer.preClamp r).tlsGrade⟩ := rfl

theorem advancedScore_risk (md5r : String → ℕ) (sha ts : String)
    (r : ScanRecord) :
    (AdvancedScorer.score md5r sha ts r).pgdn_risk_level =
      (DefaultScorer.scoreWithVersion "2.0.0-advanced" sha ts
        r).pgdn_risk_level := rfl

theorem advancedScore_metrics (md5r : String → ℕ) (sha ts : String)
    (r : ScanRecord) :
    (AdvancedScorer.score md5r sha ts r).pgdn_metrics =
      (DefaultScorer.scoreWithVersion "2.0.0-advanced" sha ts
        r).pgdn_metrics := rfl

/-- `_calculate_pgdn_risk` reads only the `security_grade` entry of the
metrics it is given. -/
theorem calculatePgdnRisk_congr (s : ℚ) (m m' : PgdnMetrics)
    (h : m.security_grade = m'.security_grade) :
    DefaultScorer.calculatePgdnRisk s m =
      DefaultScorer.calculatePgdnRisk s m' := by
  simp [DefaultScorer.calculatePgdnRisk, h]

/-- The enhanced report carries the baseline risk level unchanged
(the `pgdn_risk_level` key is spread from the base result and never
recomputed). -/
theorem advanced_risk_eq_default (md5r : String → ℕ) (sha ts : String)
    (r : ScanRecord) :
    (AdvancedScorer.score md5r sha ts r).pgdn_risk_level =
      (DefaultScorer.score sha ts r).pgdn_risk_level := by
  rw [advancedScore_risk, scoreWithVersion_risk, DefaultScorer.score,
    scoreWithVersion_risk]
  exact calculatePgdnRisk_congr _ _ _ rfl

/-- The untriggered pipeline leaves the accumulator at its initial value,
with only the TLS grade recorded, on the record `recWebEnum`. -/
theorem preClamp_recWebEnum :
    DefaultScorer.preClamp recWebEnum = ⟨100, [], [], "A+", some "A"⟩ := by
  decide

/-- Claim C9: the enhanced report's `pgdn_risk_level` equals the baseline
one, computed from the pre-adjustment score and grade; it is not recomputed
from the ML-adjusted score, so (concretely, on `recWebEnum`) the enhanced
score 85 carries risk level MINIMAL although recomputing the risk level at
score 85 would give LOW. -/
theorem pgdnC9_staleRiskLevel (md5r : String → ℕ) (sha ts : String)
    (r : ScanRecord) :
    (AdvancedScorer.score md5r sha ts r).pgdn_risk_level =
      (DefaultScorer.score sha ts r).pgdn_risk_level ∧
    (AdvancedScorer.score (fun _ => 0) "h" "t" recWebEnum).score = 85 ∧
    (AdvancedScorer.score (fun _ => 0) "h" "t"
      recWebEnum).pgdn_risk_level = "MINIMAL" ∧
    DefaultScorer.calculatePgdnRisk
      (AdvancedScorer.score (fun _ => 0) "h" "t" recWebEnum).score
      (AdvancedScorer.score (fun _ => 0) "h" "t" recWebEnum).pgdn_metrics =
      "LOW" := by
  have hadj : (AdvancedScorer.applyMlAnalysis (fun _ => 0)
      recWebEnum).score_adjustment = -15 := by
    rw [(applyMlAnalysis_spec (fun _ => 0) recWebEnum).1]
    have hgeo : ¬ AdvancedScorer.assessGeographicRisk (fun _ => 0)
        recWebEnum.ip > 7 / 10 := geoRisk_private_small _ _ (by decide)
    simp [mlAdjustmentSpec, hgeo,
      (by decide : AdvancedScorer.isSuspiciousPortPattern
        recWebEnum.open_ports = true),
      (by decide : AdvancedScorer.detectBehavioralAnomaly recWebEnum = false),
      (by decide : AdvancedScorer.detectSecurityBestPractices recWebEnum =
        false)]
  have hscore : (AdvancedScorer.score (fun _ => 0) "h" "t" recWebEnum).score
      = 85 := by
    rw [advancedScore_score, hadj, preClamp_recWebEnum]
    norm_num [DefaultScorer.clamp01]
  refine ⟨advanced_risk_eq_default md5r sha ts r, hscore, ?_, ?_⟩
  · rw [advancedScore_risk, scoreWithVersion_risk, preClamp_recWebEnum]
    norm_num [DefaultScorer.clamp01, DefaultScorer.calculatePgdnRisk]
  · rw [hscore, advancedScore_metrics, scoreWithVersion_metrics,
      preClamp_recWebEnum]
    norm_num [DefaultScorer.calculatePgdnRisk]

/-- Claim C10: when the best-practice bonus fires, neither the
suspicious-port-pattern rule nor the behavioral-anomaly rule fires, so the
ML score adjustment is +5 or −5, the latter exactly when the geographic
risk exceeds 0.7; and +5 is the maximum possible adjustment for any
input. -/
theorem pgdnC10_bonusExclusive (md5r : String → ℕ) (r : ScanRecord) :
    (AdvancedScorer.detectSecurityBestPractices r = true →
      AdvancedScorer.isSuspiciousPortPattern r.open_ports = false ∧
      AdvancedScorer.detectBehavioralAnomaly r = false ∧
      ((AdvancedScorer.applyMlAnalysis md5r r).score_adjustment = 5 ∨
        (AdvancedScorer.applyMlAnalysis md5r r).score_adjustment = -5) ∧
      ((AdvancedScorer.applyMlAnalysis md5r r).score_adjustment = -5 ↔
        AdvancedScorer.assessGeographicRisk md5r r.ip > 7 / 10)) ∧
    (AdvancedScorer.applyMlAnalysis md5r r).score_adjustment ≤ 5 := by
  obtain ⟨hadj, -⟩ := applyMlAnalysis_spec md5r r
  constructor
  · intro hbest
    obtain ⟨h443, h80, -, hlen⟩ := (bestPractices_iff r).mp hbest
    have hsusp := bestPractices_excludes_suspicious r h443 h80 hlen
    have hbehav := bestPractices_excludes_behavioral r h80 hlen
    refine ⟨hsusp, hbehav, ?_, ?_⟩ <;>
      rw [hadj] <;>
      simp only [mlAdjustmentSpec, hsusp, hbehav, hbest, if_false, if_true,
        Bool.false_eq_true, if_neg, ite_false, ite_true] <;>
      by_cases hg : AdvancedScorer.assessGeographicRisk md5r r.ip > 7 / 10 <;>
      simp [hg]
  · rw [hadj]
    unfold mlAdjustmentSpec
    split_ifs <;> omega

/-- A rational that is an integer multiple of one fifth. -/
def MulFifth (q : ℚ) : Prop := ∃ n : ℤ, q * 5 = (n : ℚ)

/-- A rational with an integer value. -/
def IsIntVal (q : ℚ) : Prop := ∃ n : ℤ, q = (n : ℚ)

theorem mulFifth_sub (q p : ℚ) (hq : MulFifth q) (hp : MulFifth p) :
    MulFifth (q - p) := by
  obtain ⟨n, hn⟩ := hq
  obtain ⟨m, hm⟩ := hp
  exact ⟨n - m, by rw [sub_mul, hn, hm]; push_cast; ring⟩

theorem isIntVal_sub (q p : ℚ) (hq : IsIntVal q) (hp : IsIntVal p) :
    IsIntVal (q - p) := by
  obtain ⟨n, hn⟩ := hq
  obtain ⟨m, hm⟩ := hp
  exact ⟨n - m, by rw [hn, hm]; push_cast; ring⟩

theorem dockerCheck_mulFifth (ports : List Int)
    (st : DefaultScorer.ScoreState) (h : MulFifth st.score) :
    MulFifth (DefaultScorer.dockerCheck ports st).score := by
  unfold DefaultScorer.dockerCheck
  split_ifs
  · exact mulFifth_sub _ _ h ⟨175, by norm_num⟩
  · exact mulFifth_sub _ _ h ⟨75, by norm_num⟩
  · exact h

theorem sshCheck_mulFifth (ports : List Int)
    (st : DefaultScorer.ScoreState) (h : MulFifth st.score) :
    MulFifth (DefaultScorer.sshCheck ports st).score := by
  unfold DefaultScorer.sshCheck
  dsimp only
  split_ifs <;>
    first
      | exact h
      | exact mulFifth_sub _ 8 h ⟨40, by norm_num⟩
      | exact mulFifth_sub _ 12 h ⟨60, by norm_num⟩
      | exact mulFifth_sub _ 8 (mulFifth_sub _ 12 h ⟨60, by norm_num⟩)
          ⟨40, by norm_num⟩

theorem tlsCheck_mulFifth (t : Option TlsInfo)
    (st : DefaultScorer.ScoreState) (h : MulFifth st.score) :
    MulFifth (DefaultScorer.tlsCheck t st).score := by
  unfold DefaultScorer.tlsCheck
  split_ifs <;>
    first
      | exact h
      | exact mulFifth_sub _ 28 h ⟨140, by norm_num⟩

theorem vulnCheck_mulFifth (vulns : List (String × String)) :
    ∀ st : DefaultScorer.ScoreState, MulFifth st.score →
    MulFifth (DefaultScorer.vulnCheck vulns st).score := by
  induction vulns with
  | nil => intro st h; exact h
  | cons v vs ih =>
    intro st h
    refine ih (DefaultScorer.vulnStep st v) ?_
    unfold DefaultScorer.vulnStep
    dsimp only
    split_ifs <;>
      first
        | exact mulFifth_sub _ (18 * (3 / 2)) h ⟨135, by norm_num⟩
        | exact mulFifth_sub _ (18 * (6 / 5)) h ⟨108, by norm_num⟩
        | exact mulFifth_sub _ 18 h ⟨90, by norm_num⟩

theorem dbCheck_mulFifth (ports : List Int)
    (st : DefaultScorer.ScoreState) (h : MulFifth st.score) :
    MulFifth (DefaultScorer.dbCheck ports st).score := by
  unfold DefaultScorer.dbCheck
  dsimp only
  split_ifs <;>
    first
      | exact h
      | exact mulFifth_sub _ 30 h ⟨150, by norm_num⟩

theorem portCountCheck_mulFifth (ports : List Int)
    (st : DefaultScorer.ScoreState) (h : MulFifth st.score) :
    MulFifth (DefaultScorer.portCountCheck ports st).score := by
  unfold DefaultScorer.portCountCheck
  split_ifs <;>
    first
      | exact h
      | exact mulFifth_sub _ (((ports.length - 5 : ℕ) : ℚ) * 2) h
          ⟨(ports.length - 5 : ℕ) * 10, by push_cast; ring⟩

theorem preClamp_mulFifth (r : ScanRecord) :
    MulFifth (DefaultScorer.preClamp r).score :=
  portCountCheck_mulFifth _ _ (dbCheck_mulFifth _ _ (vulnCheck_mulFifth _ _
    (tlsCheck_mulFifth _ _ (sshCheck_mulFifth _ _ (dockerCheck_mulFifth _ _
      ⟨500, by norm_num [DefaultScorer.initState]⟩)))))

theorem clamp01_mulFifth (q : ℚ) (h : MulFifth q) :
    MulFifth (DefaultScorer.clamp01 q) := by
  unfold DefaultScorer.clamp01
  rcases le_total (100 : ℚ) q with h1 | h1
  · rw [min_eq_left h1]
    rcases le_total (0 : ℚ) 100 with h2 | h2
    · rw [max_eq_right h2]; exact ⟨500, by norm_num⟩
    · rw [max_eq_left h2]; exact ⟨0, by norm_num⟩
  · rw [min_eq_right h1]
    rcases le_total (0 : ℚ) q with h2 | h2
    · rw [max_eq_right h2]; exact h
    · rw [max_eq_left h2]; exact ⟨0, by norm_num⟩

theorem clamp01_isIntVal (q : ℚ) (h : IsIntVal q) :
    IsIntVal (DefaultScorer.clamp01 q) := by
  unfold DefaultScorer.clamp01
  rcases le_total (100 : ℚ) q with h1 | h1
  · rw [min_eq_left h1]
    rcases le_total (0 : ℚ) 100 with h2 | h2
    · rw [max_eq_right h2]; exact ⟨100, by norm_num⟩
    · rw [max_eq_left h2]; exact ⟨0, by norm_num⟩
  · rw [min_eq_right h1]
    rcases le_total (0 : ℚ) q with h2 | h2
    · rw [max_eq_right h2]; exact h
    · rw [max_eq_left h2]; exact ⟨0, by norm_num⟩

theorem dockerCheck_isIntVal (ports : List Int)
    (st : DefaultScorer.ScoreState) (h : IsIntVal st.score) :
    IsIntVal (DefaultScorer.dockerCheck ports st).score := by
  unfold DefaultScorer.dockerCheck
  split_ifs
  · exact isIntVal_sub _ _ h ⟨35, by norm_num⟩
  · exact isIntVal_sub _ _ h ⟨15, by norm_num⟩
  · exact h

theorem sshCheck_isIntVal (ports : List Int)
    (st : DefaultScorer.ScoreState) (h : IsIntVal st.score) :
    IsIntVal (DefaultScorer.sshCheck ports st).score := by
  unfold DefaultScorer.sshCheck
  dsimp only
  split_ifs <;>
    first
      | exact h
      | exact isIntVal_sub _ 8 h ⟨8, by norm_num⟩
      | exact isIntVal_sub _ 12 h ⟨12, by norm_num⟩
      | exact isIntVal_sub _ 8 (isIntVal_sub _ 12 h ⟨12, by norm_num⟩)
          ⟨8, by norm_num⟩

theorem tlsCheck_isIntVal (t : Option TlsInfo)
    (st : DefaultScorer.ScoreState) (h : IsIntVal st.score) :
    IsIntVal (DefaultScorer.tlsCheck t st).score := by
  unfold DefaultScorer.tlsCheck
  split_ifs <;>
    first
      | exact h
      | exact isIntVal_sub _ 28 h ⟨28, by norm_num⟩

theorem vulnCheck_isIntVal (vulns : List (String × String)) :
    ∀ st : DefaultScorer.ScoreState,
    (∀ v ∈ vulns, DefaultScorer.assessVulnSeverity v.1 v.2 ≠ "HIGH") →
    IsIntVal st.score →
    IsIntVal (DefaultScorer.vulnCheck vulns st).score := by
  induction vulns with
  | nil => intro st _ h; exact h
  | cons v vs ih =>
    intro st hhigh h
    refine ih (DefaultScorer.vulnStep st v)
      (fun w hw => hhigh w (List.mem_cons_of_mem v hw)) ?_
    have hv := hhigh v (List.mem_cons_self v vs)
    unfold DefaultScorer.vulnStep
    dsimp only
    split_ifs with hcrit
    · exact isIntVal_sub _ (18 * (3 / 2)) h ⟨27, by norm_num⟩
    · exact isIntVal_sub _ 18 h ⟨18, by norm_num⟩

theorem dbCheck_isIntVal (ports : List Int)
    (st : DefaultScorer.ScoreState) (h : IsIntVal st.score) :
    IsIntVal (DefaultScorer.dbCheck ports st).score := by
  unfold DefaultScorer.dbCheck
  dsimp only
  split_ifs <;>
    first
      | exact h
      | exact isIntVal_sub _ 30 h ⟨30, by norm_num⟩

theorem portCountCheck_isIntVal (ports : List Int)
    (st : DefaultScorer.ScoreState) (h : IsIntVal st.score) :
    IsIntVal (DefaultScorer.portCountCheck ports st).score := by
  unfold DefaultScorer.portCountCheck
  split_ifs <;>
    first
      | exact h
      | exact isIntVal_sub _ (((ports.length - 5 : ℕ) : ℚ) * 2) h
          ⟨(ports.length - 5 : ℕ) * 2, by push_cast; ring⟩

/-- Claim C3 as stated is false on the code: one HIGH-severity vulnerability
(multiplier 1.2) leaves the clean record `recHighVuln` at the fractional
score 78.4 = 392/5, which is not an integer. -/
theorem pgdnC3_cex :
    (DefaultScorer.score "h" "t" recHighVuln).score = 392 / 5 ∧
    ¬ ∃ n : ℤ, (DefaultScorer.score "h" "t" recHighVuln).score = (n : ℚ) := by
  have hv : (DefaultScorer.score "h" "t" recHighVuln).score = 392 / 5 := by
    rw [DefaultScorer.score, scoreWithVersion_score]
    have hs : (DefaultScorer.preClamp recHighVuln).score = 392 / 5 := by
      simp [DefaultScorer.preClamp, recHighVuln, DefaultScorer.dockerCheck,
        DefaultScorer.sshCheck, DefaultScorer.tlsCheck,
        DefaultScorer.vulnCheck, DefaultScorer.vulnStep,
        DefaultScorer.dbCheck, DefaultScorer.portCountCheck,
        DefaultScorer.initState, DefaultScorer.altSshPorts,
        DefaultScorer.dbPorts, DefaultScorer.tlsBad,
        (by decide : DefaultScorer.assessVulnSeverity "CVE-3" "high risk" =
          "HIGH")]
      norm_num
    rw [hs]
    norm_num [DefaultScorer.clamp01]
  refine ⟨hv, ?_⟩
  rintro ⟨n, hn⟩
  rw [hv, div_eq_iff (by norm_num : (5 : ℚ) ≠ 0)] at hn
  have hz : (392 : ℤ) = n * 5 := by exact_mod_cast hn
  omega

/-- Claim C3 amended: the returned score lies in [0,100] and is always an
integer multiple of 1/5; it is an integer whenever no vulnerability is
classified HIGH, but a HIGH vulnerability (multiplier 1.2) can make it
fractional. -/
theorem pgdnC3_scoreGranularity (sha ts : String) (r : ScanRecord) :
    (0 ≤ (DefaultScorer.score sha ts r).score ∧
      (DefaultScorer.score sha ts r).score ≤ 100) ∧
    (∃ n : ℤ, (DefaultScorer.score sha ts r).score * 5 = (n : ℚ)) ∧
    ((∀ v ∈ r.vulns, DefaultScorer.assessVulnSeverity v.1 v.2 ≠ "HIGH") →
      ∃ n : ℤ, (DefaultScorer.score sha ts r).score = (n : ℚ)) := by
  refine ⟨⟨?_, ?_⟩, ?_, ?_⟩
  · rw [DefaultScorer.score, scoreWithVersion_score]; exact clamp01_nonneg _
  · rw [DefaultScorer.score, scoreWithVersion_score]; exact clamp01_le_100 _
  · rw [DefaultScorer.score, scoreWithVersion_score]
    exact clamp01_mulFifth _ (preClamp_mulFifth r)
  · intro hhigh
    rw [DefaultScorer.score, scoreWithVersion_score]
    refine clamp01_isIntVal _ ?_
    unfold DefaultScorer.preClamp
    exact portCountCheck_isIntVal _ _ (dbCheck_isIntVal _ _
      (vulnCheck_isIntVal _ _ hhigh (tlsCheck_isIntVal _ _
        (sshCheck_isIntVal _ _ (dockerCheck_isIntVal _ _
          ⟨100, by norm_num [DefaultScorer.initState]⟩)))))

/-- Witness for the amended claim C3 at a record with no vulnerabilities:
the score is an integer. -/
theorem pgdnC3_witness :
    ∃ n : ℤ, (DefaultScorer.score "h" "t" recHttpsDigicert).score = (n : ℚ) :=
  (pgdnC3_scoreGranularity "h" "t" recHttpsDigicert).2.2 (by decide)

/-- A record on which no penalty rule of `DefaultScorer.score` triggers
(the "otherwise-clean record" of spec section 8): no Docker, SSH,
alternative-SSH or database port, good TLS, no vulnerabilities, and at
most 5 open ports. -/
def cleanRecord (r : ScanRecord) : Prop :=
  2375 ∉ r.open_ports ∧ 2376 ∉ r.open_ports ∧ 22 ∉ r.open_ports ∧
  r.open_ports.filter (fun p => p ∈ DefaultScorer.altSshPorts) = [] ∧
  DefaultScorer.tlsBad r.tls = false ∧ r.vulns = [] ∧
  r.open_ports.filter (fun p => p ∈ DefaultScorer.dbPorts) = [] ∧
  r.open_ports.length ≤ 5

instance cleanRecordDecidable (r : ScanRecord) :
    Decidable (cleanRecord r) := by
  unfold cleanRecord
  infer_instance

/-- The record with port 2375 added to its open ports. -/
def withDockerPort (r : ScanRecord) : ScanRecord :=
  { r with open_ports := r.open_ports ++ [2375] }

/-- On a clean record the pipeline leaves the accumulator at its initial
value, with only the TLS grade recorded. -/
theorem preClamp_clean (r : ScanRecord) (h : cleanRecord r) :
    DefaultScorer.preClamp r =
      ⟨100, [], [], "A+", some (DefaultScorer.tlsGradeOf r.tls)⟩ := by
  obtain ⟨h1, h2, h3, h4, h5, h6, h7, h8⟩ := h
  have h8' : ¬ r.open_ports.length > 5 := by omega
  simp [DefaultScorer.preClamp, DefaultScorer.dockerCheck,
    DefaultScorer.sshCheck, DefaultScorer.tlsCheck, DefaultScorer.vulnCheck,
    DefaultScorer.dbCheck, DefaultScorer.portCountCheck,
    DefaultScorer.initState, h1, h2, h3, h4, h5, h6, h7, h8']

/-- On a clean record the baseline score is the full 100. -/
theorem defaultScore_clean (sha ts : String) (r : ScanRecord)
    (h : cleanRecord r) : (DefaultScorer.score sha ts r).score = 100 := by
  rw [DefaultScorer.score, scoreWithVersion_score, preClamp_clean r h]
  norm_num [DefaultScorer.clamp01]

/-- Adding port 2375 to a clean record with at most 4 open ports triggers
exactly the Docker rule: 35 points and grade `F`. -/
theorem preClamp_withDocker (r : ScanRecord) (h : cleanRecord r)
    (hlen : r.open_ports.length ≤ 4) :
    DefaultScorer.preClamp (withDockerPort r) =
      ⟨65, ["CRITICAL: Docker socket exposed (unencrypted)"],
        [("docker", "CRITICAL")], "F",
        some (DefaultScorer.tlsGradeOf r.tls)⟩ := by
  obtain ⟨h1, h2, h3, h4, h5, h6, h7, h8⟩ := h
  have hlen' : ¬ (r.open_ports ++ [2375]).length > 5 := by
    simp only [List.length_append, List.length_cons, List.length_nil]
    omega
  simp only [DefaultScorer.preClamp, withDockerPort, DefaultScorer.dockerCheck,
    DefaultScorer.sshCheck, DefaultScorer.tlsCheck, DefaultScorer.vulnCheck,
    DefaultScorer.dbCheck, DefaultScorer.portCountCheck,
    DefaultScorer.initState, List.mem_append, List.filter_append,
    h4, h5, h6, h7, hlen']
  norm_num [h1, h2, h3, DefaultScorer.altSshPorts, DefaultScorer.dbPorts]

theorem scoreWithVersion_grade (v sha ts : String) (r : ScanRecord) :
    (DefaultScorer.scoreWithVersion v sha ts
      r).pgdn_metrics.security_grade =
      (DefaultScorer.preClamp r).securityGrade := rfl

/-- Claim C6 as stated is false on the code: on the clean five-port record
`recFivePorts`, adding port 2375 also triggers the port-count penalty
(6 ports), so the score drops by 37, not exactly by the Docker weight
35. -/
theorem pgdnC6_cex :
    cleanRecord recFivePorts ∧
    (DefaultScorer.score "h" "t" recFivePorts).score = 100 ∧
    (DefaultScorer.score "h2" "t2" (withDockerPort recFivePorts)).score =
      63 ∧
    ¬ (DefaultScorer.score "h2" "t2" (withDockerPort recFivePorts)).score =
      (DefaultScorer.score "h" "t" recFivePorts).score - 35 := by
  have hclean : cleanRecord recFivePorts := by decide
  have h100 := defaultScore_clean "h" "t" recFivePorts hclean
  have h63 : (DefaultScorer.score "h2" "t2"
      (withDockerPort recFivePorts)).score = 63 := by
    rw [DefaultScorer.score, scoreWithVersion_score]
    have hs : (DefaultScorer.preClamp (withDockerPort recFivePorts)).score =
        63 := by
      simp [DefaultScorer.preClamp, withDockerPort, recFivePorts,
        DefaultScorer.dockerCheck, DefaultScorer.sshCheck,
        DefaultScorer.tlsCheck, DefaultScorer.vulnCheck,
        DefaultScorer.dbCheck, DefaultScorer.portCountCheck,
        DefaultScorer.initState, DefaultScorer.altSshPorts,
        DefaultScorer.dbPorts, DefaultScorer.tlsBad]
      norm_num
    rw [hs]
    norm_num [DefaultScorer.clamp01]
  refine ⟨hclean, h100, h63, ?_⟩
  rw [h100, h63]
  norm_num

/-- Claim C6 amended: adding port 2375 to an otherwise-clean record with at
most 4 open ports (so that the port-count penalty stays untriggered)
strictly decreases the baseline score by exactly the Docker weight 35 and
forces the security grade to F. -/
theorem pgdnC6_dockerPenaltyAmended (sha ts sha2 ts2 : String)
    (r : ScanRecord) (h : cleanRecord r)
    (hlen : r.open_ports.length ≤ 4) :
    (DefaultScorer.score sha2 ts2 (withDockerPort r)).score =
      (DefaultScorer.score sha ts r).score - 35 ∧
    (DefaultScorer.score sha2 ts2 (withDockerPort r)).score <
      (DefaultScorer.score sha ts r).score ∧
    (DefaultScorer.score sha2 ts2
      (withDockerPort r)).pgdn_metrics.security_grade = "F" := by
  have hc := defaultScore_clean sha ts r h
  have hd : (DefaultScorer.score sha2 ts2 (withDockerPort r)).score = 65 := by
    rw [DefaultScorer.score, scoreWithVersion_score,
      preClamp_withDocker r h hlen]
    norm_num [DefaultScorer.clamp01]
  refine ⟨?_, ?_, ?_⟩
  · rw [hd, hc]; norm_num
  · rw [hd, hc]; norm_num
  · rw [DefaultScorer.score, scoreWithVersion_grade,
      preClamp_withDocker r h hlen]

/-- Witness for the amended claim C6 at a concrete one-port clean
record. -/
theorem pgdnC6_witness :
    cleanRecord recHttpsDigicert ∧
    recHttpsDigicert.open_ports.length ≤ 4 ∧
    (DefaultScorer.score "h2" "t2" (withDockerPort recHttpsDigicert)).score =
      (DefaultScorer.score "h" "t" recHttpsDigicert).score - 35 :=
  ⟨by decide, by decide,
    (pgdnC6_dockerPenaltyAmended "h" "t" "h2" "t2" recHttpsDigicert
      (by decide) (by decide)).1⟩

/-- Claim C8 as stated is false on the code: the advanced report's
`pgdn_metrics` is not the baseline report's `pgdn_metrics`, because the
inherited scoring body runs with the advanced `self.version`, so
`pgdn_metrics.scorer_version` reads `2.0.0-advanced` instead of `1.0.0`
— already on the trivial record `recHttpsDigicert`. -/
theorem pgdnC8_cex :
    (AdvancedScorer.score (fun _ => 0) "h" "t"
      recHttpsDigicert).pgdn_metrics.scorer_version = "2.0.0-advanced" ∧
    (DefaultScorer.score "h" "t"
      recHttpsDigicert).pgdn_metrics.scorer_version = "1.0.0" ∧
    (AdvancedScorer.score (fun _ => 0) "h" "t" recHttpsDigicert).pgdn_metrics
      ≠ (DefaultScorer.score "h" "t" recHttpsDigicert).pgdn_metrics := by
  refine ⟨rfl, rfl, fun h => ?_⟩
  exact absurd (congrArg PgdnMetrics.scorer_version h) (by decide)

/-- Claim C8 amended: the advanced report preserves every baseline field it
does not explicitly override (score, flags, summary, scorer_id, plus the
added ml_analysis and ml_enhanced), except that inside `pgdn_metrics` the
`scorer_version` entry reads `2.0.0-advanced` instead of `1.0.0` (all other
metrics entries are unchanged); and no baseline flag is removed. -/
theorem pgdnC8_frameAmended (md5r : String → ℕ) (sha ts : String)
    (r : ScanRecord) :
    (AdvancedScorer.score md5r sha ts r).ip =
      (DefaultScorer.score sha ts r).ip ∧
    (AdvancedScorer.score md5r sha ts r).timestamp =
      (DefaultScorer.score sha ts r).timestamp ∧
    (AdvancedScorer.score md5r sha ts r).hash =
      (DefaultScorer.score sha ts r).hash ∧
    (AdvancedScorer.score md5r sha ts r).docker_exposure =
      (DefaultScorer.score sha ts r).docker_exposure ∧
    (AdvancedScorer.score md5r sha ts r).enhanced_analysis =
      (DefaultScorer.score sha ts r).enhanced_analysis ∧
    (AdvancedScorer.score md5r sha ts r).pgdn_risk_level =
      (DefaultScorer.score sha ts r).pgdn_risk_level ∧
    (AdvancedScorer.score md5r sha ts r).pgdn_metrics =
      { (DefaultScorer.score sha ts r).pgdn_metrics with
        scorer_version := "2.0.0-advanced" } ∧
    (AdvancedScorer.score md5r sha ts r).ml_analysis =
      some (AdvancedScorer.applyMlAnalysis md5r r) ∧
    (AdvancedScorer.score md5r sha ts r).ml_enhanced = some true ∧
    (AdvancedScorer.score md5r sha ts r).scorer_id =
      "pgdn.scoring.advanced_scorer.AdvancedScorer" ∧
    ∃ t, (AdvancedScorer.score md5r sha ts r).flags =
      (DefaultScorer.score sha ts r).flags ++ t :=
  ⟨rfl, rfl, rfl, rfl, rfl, advanced_risk_eq_default md5r sha ts r, rfl,
    rfl, rfl, rfl, ⟨(AdvancedScorer.applyMlAnalysis md5r r).ml_flags, rfl⟩⟩

/-- Claim C7: a record missing all optional fields (`open_ports`, `tls`,
`vulns`, `docker_exposure`) — or carrying a null/empty `tls` — is scored by
both scorers without failure: the only finding is the TLS issue (absent TLS
counts as a TLS problem, score 100 − 28 = 72), the passed-through
`docker_exposure` defaults to `{"exposed": False}`, and the enhanced scorer
adds no ML flag beyond the input-independent geographic-risk rule. -/
theorem pgdnC7_missingFieldsTotal (md5r : String → ℕ) (sha ts ip : String) :
    (DefaultScorer.score sha ts ⟨ip, [], none, [], none⟩).score = 72 ∧
    (DefaultScorer.score sha ts ⟨ip, [], none, [], none⟩).flags =
      ["TLS configuration critical issues"] ∧
    (DefaultScorer.score sha ts ⟨ip, [], none, [], none⟩).docker_exposure =
      ⟨false⟩ ∧
    (DefaultScorer.score sha ts ⟨ip, [], some ⟨none, none⟩, [],
      none⟩).score = 72 ∧
    (DefaultScorer.score sha ts ⟨ip, [], some ⟨none, none⟩, [],
      none⟩).flags = ["TLS configuration critical issues"] ∧
    (AdvancedScorer.score md5r sha ts ⟨ip, [], none, [], none⟩).flags =
      ["TLS configuration critical issues"] ++
        (if AdvancedScorer.assessGeographicRisk md5r ip > 7 / 10 then
          ["ML: High geographic risk detected"] else []) := by
  have hpre : DefaultScorer.preClamp ⟨ip, [], none, [], none⟩ =
      ⟨72, ["TLS configuration critical issues"], [("tls", "CRITICAL")],
        "D", none⟩ := by
    simp [DefaultScorer.preClamp, DefaultScorer.dockerCheck,
      DefaultScorer.sshCheck, DefaultScorer.tlsCheck, DefaultScorer.vulnCheck,
      DefaultScorer.dbCheck, DefaultScorer.portCountCheck,
      DefaultScorer.initState, DefaultScorer.tlsBad]
    norm_num
  have hpre2 : DefaultScorer.preClamp ⟨ip, [], some ⟨none, none⟩, [],
      none⟩ =
      ⟨72, ["TLS configuration critical issues"], [("tls", "CRITICAL")],
        "D", none⟩ := by
    simp [DefaultScorer.preClamp, DefaultScorer.dockerCheck,
      DefaultScorer.sshCheck, DefaultScorer.tlsCheck, DefaultScorer.vulnCheck,
      DefaultScorer.dbCheck, DefaultScorer.portCountCheck,
      DefaultScorer.initState, DefaultScorer.tlsBad]
    norm_num
  refine ⟨?_, ?_, rfl, ?_, ?_, ?_⟩
  · rw [DefaultScorer.score, scoreWithVersion_score, hpre]
    norm_num [DefaultScorer.clamp01]
  · rw [DefaultScorer.score, scoreWithVersion_flags, hpre]
  · rw [DefaultScorer.score, scoreWithVersion_score, hpre2]
    norm_num [DefaultScorer.clamp01]
  · rw [DefaultScorer.score, scoreWithVersion_flags, hpre2]
  · rw [advancedScore_flags, hpre,
      (applyMlAnalysis_spec md5r ⟨ip, [], none, [], none⟩).2]
    have hbehav : AdvancedScorer.detectBehavioralAnomaly
        ⟨ip, [], none, [], none⟩ = false := by
      simp [AdvancedScorer.detectBehavioralAnomaly]
    have hbest : AdvancedScorer.detectSecurityBestPractices
        ⟨ip, [], none, [], none⟩ = false := by
      simp [AdvancedScorer.detectSecurityBestPractices]
    by_cases hg : AdvancedScorer.assessGeographicRisk md5r ip > 7 / 10 <;>
      simp [mlFlagsSpec, hbehav, hbest, hg,
        (by decide : AdvancedScorer.isSuspiciousPortPattern
          ([] : List Int) = false)]

/-- Witness for claim C10 at a concrete record on which the best-practice
bonus fires: the adjustment is +5 or −5. -/
theorem pgdnC10_witness :
    AdvancedScorer.detectSecurityBestPractices recHttpsDigicert = true ∧
    ((AdvancedScorer.applyMlAnalysis (fun _ => 0)
        recHttpsDigicert).score_adjustment = 5 ∨
      (AdvancedScorer.applyMlAnalysis (fun _ => 0)
        recHttpsDigicert).score_adjustment = -5) :=
  ⟨by decide, ((pgdnC10_bonusExclusive (fun _ => 0) recHttpsDigicert).1
    (by decide)).2.2.1⟩

end Pgdn
